import Mathlib

set_option linter.unusedVariables false

/-!
Shallow embedding of the schema-building core of the sfdc-graphql-endpoint
repository: `src/node-app/src/schema-builder.ts` (the `SchemaBuilder` class
and its builtin scalar table) and the entity model module (`entity.ts`:
`FieldType`, `Field`, `createField`, `createChildRelationShip`,
`createEntity`), together with theorems about the schema shapes they emit.

Machinery of the host language is made explicit: JavaScript `undefined` is
`Option.none`, a JS object used as a record is an association list on which
assignment overwrites in place, and `new Map(entries)` keeps the last entry
for a duplicated key.
-/

/-- Modelled from the spec: `camelCase` from `utils/string.js` (the utils
module is not among the sources).  Per the spec a display name is the
camel-cased form of the source name, so the first character is lower-cased
and the rest is kept. -/
def camelCase (s : String) : String :=
  match s.data with
  | [] => ""
  | c :: cs => String.mk (Char.toLower c :: cs)

/-! ## Entity model (`entity.ts`) -/

namespace EntityModel

/-- The `FieldType` string enum of `entity.ts`. -/
inductive FieldType
  | STRING | BOOLEAN | INT | FLOAT | DATE | DATETIME | BASE64 | ID | CURRENCY
  | TEXTAREA | PERCENT | PHONE | URL | EMAIL | ANY_TYPE | ADDRESS | LOCATION
  | PICKLIST | MULTI_PICKLIST | COMBOBOX | REFERENCE | POLYMORPHIC_REFERENCE
deriving DecidableEq

/-- `FieldConfig` from `entity.ts`. -/
structure FieldConfig where
  nillable : Bool
  createable : Bool
  updateable : Bool
  filterable : Bool
  groupable : Bool
  sortable : Bool
  aggregatable : Bool
deriving DecidableEq

/-- A scalar field (`ScalarField` in `entity.ts`).  The interface declares
`type` as one of the non-reference members of `FieldType` and `sfdcName` as a
string; at runtime, however, `createField` copies whatever the raw record
holds, so a missing source name or an unmapped source type tag leaves the
corresponding property `undefined` — modelled with `Option`. -/
structure ScalarField where
  type : Option FieldType
  sfdcName : Option String
  gqlName : Option String
  config : FieldConfig
deriving DecidableEq

/-- `ReferenceField` from `entity.ts`.  `sfdcReferencedEntityName` is
`referenceTo[0]` in the source, which is `undefined` when the raw record
declares no target, hence `Option`; `sfdcName` mirrors the raw record's
(possibly absent) name. -/
structure ReferenceField where
  sfdcName : Option String
  gqlName : String
  sfdcRelationshipName : String
  sfdcReferencedEntityName : Option String
  config : FieldConfig
deriving DecidableEq

/-- `PolymorphicReferenceField` from `entity.ts`. -/
structure PolymorphicReferenceField where
  sfdcName : Option String
  gqlName : String
  sfdcRelationshipName : String
  sfdcReferencedEntitiesNames : List String
  config : FieldConfig
deriving DecidableEq

/-- The `Field` union of `entity.ts` (scalar, single reference, polymorphic
reference). -/
inductive Field
  | scalar (f : ScalarField)
  | reference (f : ReferenceField)
  | polymorphicReference (f : PolymorphicReferenceField)
deriving DecidableEq

/-- `ChildRelationship` from `entity.ts`. -/
structure ChildRelationship where
  sfdcName : String
  gqlName : String
  entity : String
deriving DecidableEq

/-- `EntityConfig` from `entity.ts`. -/
structure EntityConfig where
  createable : Bool
  updateable : Bool
  deletable : Bool
  queryable : Bool
deriving DecidableEq

/-- `Entity` from `entity.ts`. -/
structure Entity where
  sfdcName : String
  gqlName : String
  config : EntityConfig
  fields : List Field
  childRelationships : List ChildRelationship
deriving DecidableEq

/-- Modelled from the spec: the raw field record shape (`SObjectField` from
`sfdc/types/describe-sobject.js`, which is not among the sources).  Only the
properties `createField` reads are carried.  The raw source type tag is a
plain string as delivered by the metadata API; per the spec a raw record may
lack its source name, and a reference record may lack a relationship name,
so both are optional. -/
structure SObjectField where
  name : Option String
  type : String
  nillable : Bool
  createable : Bool
  updateable : Bool
  filterable : Bool
  groupable : Bool
  sortable : Bool
  aggregatable : Bool
  relationshipName : Option String
  referenceTo : List String
  polymorphicForeignKey : Bool
deriving DecidableEq

/-- Modelled from the spec: the raw child relationship record
(`SObjectChildRelationship` from `describe-sobject.js`, not among the
sources); its relationship name may be `null`. -/
structure SObjectChildRelationship where
  relationshipName : Option String
  childSObject : String
deriving DecidableEq

/-- Modelled from the spec: the raw entity record (`DescribeSObjectResult`
from `describe-sobject.js`, not among the sources), restricted to the
properties `createEntity` reads. -/
structure DescribeSObjectResult where
  name : String
  createable : Bool
  updateable : Bool
  deletable : Bool
  queryable : Bool
  fields : List SObjectField
  childRelationships : List SObjectChildRelationship
deriving DecidableEq

/-- `SOBJECT_FIELD_SCALAR_TYPE_MAPPING` from `entity.ts`: the object literal
keyed by the non-reference source type tags.  An object lookup with a key
outside the literal yields `undefined`, modelled as `none`. -/
def SOBJECT_FIELD_SCALAR_TYPE_MAPPING : String → Option FieldType
  | "string" => some FieldType.STRING
  | "boolean" => some FieldType.BOOLEAN
  | "int" => some FieldType.INT
  | "double" => some FieldType.FLOAT
  | "date" => some FieldType.DATE
  | "datetime" => some FieldType.DATETIME
  | "base64" => some FieldType.BASE64
  | "id" => some FieldType.ID
  | "currency" => some FieldType.CURRENCY
  | "textarea" => some FieldType.TEXTAREA
  | "percent" => some FieldType.PERCENT
  | "phone" => some FieldType.PHONE
  | "url" => some FieldType.URL
  | "email" => some FieldType.EMAIL
  | "combobox" => some FieldType.COMBOBOX
  | "picklist" => some FieldType.PICKLIST
  | "multipicklist" => some FieldType.MULTI_PICKLIST
  | "anyType" => some FieldType.ANY_TYPE
  | "address" => some FieldType.ADDRESS
  | "location" => some FieldType.LOCATION
  | _ => none

/-- `createField` from `entity.ts`.  `none` models the `return;` that drops a
record (a reference record whose relationship name is falsy: absent or the
empty string).  The scalar branch copies the mapping lookup and the raw name
verbatim, so an unmapped tag or a missing name flows into the field as
`undefined` (`none`); `gqlName` is the camel-cased raw name when one exists
(`camelCase` applied to `undefined` would itself be a runtime type error). -/
def createField (sObjectField : SObjectField) : Option Field :=
  let config : FieldConfig :=
    { nillable := sObjectField.nillable
      createable := sObjectField.createable
      updateable := sObjectField.updateable
      filterable := sObjectField.filterable
      groupable := sObjectField.groupable
      sortable := sObjectField.sortable
      aggregatable := sObjectField.aggregatable }
  if sObjectField.type = "reference" then
    match sObjectField.relationshipName with
    | none => none
    | some relationshipName =>
      if relationshipName = "" then none
      else if sObjectField.polymorphicForeignKey then
        some (Field.polymorphicReference
          { sfdcName := sObjectField.name
            gqlName := camelCase relationshipName
            sfdcRelationshipName := relationshipName
            sfdcReferencedEntitiesNames := sObjectField.referenceTo
            config := config })
      else
        some (Field.reference
          { sfdcName := sObjectField.name
            gqlName := camelCase relationshipName
            sfdcRelationshipName := relationshipName
            sfdcReferencedEntityName := sObjectField.referenceTo.head?
            config := config })
  else
    some (Field.scalar
      { type := SOBJECT_FIELD_SCALAR_TYPE_MAPPING sObjectField.type
        sfdcName := sObjectField.name
        gqlName := sObjectField.name.map camelCase
        config := config })

/-- `createChildRelationShip` from `entity.ts`: drops a record whose
relationship name is `null` (a strict null check in the source). -/
def createChildRelationShip (relationship : SObjectChildRelationship) :
    Option ChildRelationship :=
  match relationship.relationshipName with
  | none => none
  | some relationshipName =>
    some
      { sfdcName := relationshipName
        gqlName := camelCase relationshipName
        entity := relationship.childSObject }

/-- `createEntity` from `entity.ts`: maps `createField` over the raw field
records and filters out the dropped (`undefined`) ones, and likewise for
child relationships. -/
def createEntity (sObject : DescribeSObjectResult) : Entity :=
  { sfdcName := sObject.name
    gqlName := sObject.name
    config :=
      { createable := sObject.createable
        updateable := sObject.updateable
        deletable := sObject.deletable
        queryable := sObject.queryable }
    fields := (sObject.fields.map createField).filterMap id
    childRelationships :=
      (sObject.childRelationships.map createChildRelationShip).filterMap id }

end EntityModel

/-! ## Schema builder (`schema-builder.ts`)

The builder consumes the normalized graph.  Its `#buildField` switch matches
the scalar tags `id`, `string`, …, `multipicklist` and `reference` (a field
carrying a `referenceTo` list of target source names); the entity model also
declares the polymorphic reference variant and the `address` and `location`
scalar kinds, for which the switch has no case at all — the local `type`
variable is then left undefined.
-/

namespace SchemaBuilder

/-- The scalar field kinds declared by the data model: the eighteen tags the
`#buildField` switch matches plus `address` and `location`, which `entity.ts`
declares but no case of the switch (and no key of the builtin table)
handles. -/
inductive ScalarTag
  | id | string | boolean | int | double | date | datetime | base64
  | currency | textarea | percent | phone | url | email | combobox
  | anyType | picklist | multipicklist | address | location
deriving DecidableEq

/-- A GraphQL output type as the builder produces it.  An object type in
field position is identified by its name: the builder's registry maps each
entity's `gqlName` to the one object type of that name, whose field list is
kept in `buildTypes`. -/
inductive GQLOutputType
  | scalarID
  | scalarString
  | scalarBoolean
  | scalarInt
  | scalarFloat
  | namedScalar (name : String)
  | object (name : String)
  | list (ofType : GQLOutputType)
  | nonNull (ofType : GQLOutputType)
deriving DecidableEq

/-- A GraphQL field configuration: the emitted type (`none` models an
undefined type, which graphql-js rejects when the schema is realized) and
the argument list (name and argument type). -/
structure GQLFieldConfig where
  type : Option GQLOutputType
  args : List (String × GQLOutputType) := []
deriving DecidableEq

/-- A GraphQL object type: its name and its (deferred, here fully resolved)
field list. -/
structure GQLObjectType where
  name : String
  fields : List (String × GQLFieldConfig)
deriving DecidableEq

/-- The per-field configuration flags of the builder's field model; only
`nillable` is read by the builder. -/
structure FieldConfig where
  nillable : Bool
  createable : Bool
  updateable : Bool
  filterable : Bool
  groupable : Bool
  sortable : Bool
  aggregatable : Bool
deriving DecidableEq

/-- The per-entity capability flags; only `queryable` is read by the
builder. -/
structure EntityConfig where
  createable : Bool
  updateable : Bool
  deletable : Bool
  queryable : Bool
deriving DecidableEq

/-- The kind of a field as `#buildField` distinguishes it: a scalar tag, a
`reference` field carrying its `referenceTo` list of target entity source
names, or the polymorphic reference variant declared by the data model (for
which the switch has no case). -/
inductive FieldKind
  | scalar (tag : ScalarTag)
  | reference (referenceTo : List String)
  | polymorphicReference (referenceTo : List String)
deriving DecidableEq

/-- A field of the builder's entity model: source name, display name
(`gqlName`), kind, and configuration. -/
structure Field where
  sfdcName : String
  gqlName : String
  kind : FieldKind
  config : FieldConfig
deriving DecidableEq

/-- An entity of the builder's graph: source name, display name, capability
flags and field list. -/
structure Entity where
  sfdcName : String
  gqlName : String
  config : EntityConfig
  fields : List Field
deriving DecidableEq

/-- Modelled from the spec: `Graph` (`src/graph.ts` is not among the
sources) wraps the sequence of normalized entities; `entityBySfdcName`
resolves an entity by its source name (unique across entities per the
spec — the first match is returned). -/
structure Graph where
  entities : List Entity
deriving DecidableEq

/-- Modelled from the spec: lookup of an entity by source name on the
graph. -/
def entityBySfdcName (g : Graph) (name : String) : Option Entity :=
  g.entities.find? (fun e => e.sfdcName == name)

/-- `BUILTIN_SCALAR_TYPES` from `schema-builder.ts` (lines 20-40), as routed
by the scalar cases of the `#buildField` switch: `picklist` is
`GraphQLString`, `multipicklist` is `GraphQLList(GraphQLString)`, the
remaining keys are the builtin primitives or custom named scalar types.
`address` and `location` have no key in the object literal and no case in
the switch, so they produce no type (`none`). -/
def BUILTIN_SCALAR_TYPES : ScalarTag → Option GQLOutputType
  | ScalarTag.id => some GQLOutputType.scalarID
  | ScalarTag.string => some GQLOutputType.scalarString
  | ScalarTag.boolean => some GQLOutputType.scalarBoolean
  | ScalarTag.int => some GQLOutputType.scalarInt
  | ScalarTag.double => some GQLOutputType.scalarFloat
  | ScalarTag.date => some (GQLOutputType.namedScalar "Date")
  | ScalarTag.datetime => some (GQLOutputType.namedScalar "DateTime")
  | ScalarTag.base64 => some (GQLOutputType.namedScalar "Base64")
  | ScalarTag.currency => some (GQLOutputType.namedScalar "Currency")
  | ScalarTag.textarea => some (GQLOutputType.namedScalar "TextArea")
  | ScalarTag.percent => some (GQLOutputType.namedScalar "Percent")
  | ScalarTag.phone => some (GQLOutputType.namedScalar "Phone")
  | ScalarTag.url => some (GQLOutputType.namedScalar "URL")
  | ScalarTag.email => some (GQLOutputType.namedScalar "Email")
  | ScalarTag.combobox => some (GQLOutputType.namedScalar "Combobox")
  | ScalarTag.anyType => some (GQLOutputType.namedScalar "AnyType")
  | ScalarTag.picklist => some GQLOutputType.scalarString
  | ScalarTag.multipicklist => some (GQLOutputType.list GQLOutputType.scalarString)
  | ScalarTag.address => none
  | ScalarTag.location => none

/-- The builder's `graphQLTypes` registry read (`this.graphQLTypes.get`),
after `#buildTypes` has populated it: one entry per entity, keyed by the
object type's name (the entity's `gqlName`).  `new Map(entries)` keeps the
last entry of a duplicated key; either way the binding for `name` is an
object type named `name`, so the returned type reference is determined by
the key.  A key that was never registered yields `undefined` (`none`). -/
def graphQLTypesGet (g : Graph) (name : String) : Option GQLOutputType :=
  if g.entities.any (fun e => e.gqlName == name) then
    some (GQLOutputType.object name)
  else none

/-- The switch of `SchemaBuilder#buildField` (lines 125-159): the value the
local `type` variable holds before nullability wrapping.  Scalar tags go
through `BUILTIN_SCALAR_TYPES`; a `reference` with exactly one target whose
entity is found in the graph resolves to the registered object type of that
entity, any other `reference` falls back to `GraphQLID`; the polymorphic
variant (and the unlisted `address`/`location` tags) match no case, leaving
`type` undefined. -/
def buildFieldBaseType (g : Graph) (field : Field) : Option GQLOutputType :=
  match field.kind with
  | FieldKind.scalar tag => BUILTIN_SCALAR_TYPES tag
  | FieldKind.reference referenceTo =>
    match referenceTo with
    | [target] =>
      match entityBySfdcName g target with
      | some referencedEntity => graphQLTypesGet g referencedEntity.gqlName
      | none => some GQLOutputType.scalarID
    | _ => some GQLOutputType.scalarID
  | FieldKind.polymorphicReference _ => none

/-- `SchemaBuilder#buildField` (lines 122-168): resolve the base type, then
wrap it as non-null exactly when the field's `nillable` config is false.
`new GraphQLNonNull(undefined)` throws in graphql-js, so an undefined base
type never yields an emitted type (`none` stays `none`). -/
def buildField (g : Graph) (entity : Entity) (field : Field) : GQLFieldConfig :=
  let ty := buildFieldBaseType g field
  { type := if field.config.nillable then ty else ty.map GQLOutputType.nonNull }

/-- The deferred field-list thunk of one entity's object type
(`#buildTypes`, lines 67-74): one entry per field, keyed by the field's
`gqlName`.  In graphql-js the thunk runs only after every type has been
registered, so it may consult the full registry. -/
def buildObjectFields (g : Graph) (entity : Entity) : List (String × GQLFieldConfig) :=
  entity.fields.map (fun field => (field.gqlName, buildField g entity field))

/-- `SchemaBuilder#buildTypes` (lines 61-80): one object type per entity,
named by the entity's `gqlName`; the registry maps each object's name to the
object. -/
def buildTypes (g : Graph) : List (String × GQLObjectType) :=
  let entries := g.entities.map (fun entity =>
    ({ name := entity.gqlName, fields := buildObjectFields g entity } : GQLObjectType))
  entries.map (fun entry => (entry.name, entry))

/-- `Map.get` on a map built from a list of entries: the last entry with the
key wins, as `new Map(entries)` keeps the last binding of a duplicated
key. -/
def mapGet {α : Type} (entries : List (String × α)) (key : String) : Option α :=
  ((entries.filter (fun p => p.1 == key)).getLast?).map (fun p => p.2)

/-- JavaScript record assignment `r[k] = v` on an object modelled as an
association list: overwrite in place when the key is present, append
otherwise. -/
def recordSet {α : Type} (r : List (String × α)) (k : String) (v : α) :
    List (String × α) :=
  if r.any (fun p => p.1 == k) then
    r.map (fun p => if p.1 == k then (k, v) else p)
  else r ++ [(k, v)]

/-- One iteration of the `#buildQuery` loop body (lines 88-115): skip a
non-queryable entity (`continue`); for a queryable entity look its type up
in the registry and assign the `<gqlName>_by_id` operation (the entity's
registered type, one nullable `id: ID` argument) and the `<gqlName>` list
operation (`limit: Int!`, `offset: Int`). -/
def buildQueryStep (g : Graph) (queries : List (String × GQLFieldConfig))
    (entity : Entity) : List (String × GQLFieldConfig) :=
  if entity.config.queryable then
    let gqlEntityType := graphQLTypesGet g entity.gqlName
    let queries := recordSet queries (entity.gqlName ++ "_by_id")
      { type := gqlEntityType
        args := [("id", GQLOutputType.scalarID)] }
    recordSet queries entity.gqlName
      { type := gqlEntityType.map GQLOutputType.list
        args := [("limit", GQLOutputType.nonNull GQLOutputType.scalarInt),
                 ("offset", GQLOutputType.scalarInt)] }
  else queries

/-- The field collection of the root `Query` type (`#buildQuery`, lines
85-118): iterate the entities in graph order, assigning into an initially
empty record. -/
def buildQueryFields (g : Graph) : List (String × GQLFieldConfig) :=
  g.entities.foldl (buildQueryStep g) []

/-- `SchemaBuilder#buildQuery` (lines 82-120): the root object type named
`Query`. -/
def buildQuery (g : Graph) : GQLObjectType :=
  { name := "Query", fields := buildQueryFields g }

/-- The schema object (`GraphQLSchema`): all entity object types and the
root query type. -/
structure GQLSchema where
  types : List GQLObjectType
  query : GQLObjectType
deriving DecidableEq

/-- `SchemaBuilder#buildSchema` (lines 51-59): build the types, then the
root query. -/
def buildSchema (g : Graph) : GQLSchema :=
  { types := (buildTypes g).map (fun p => p.2), query := buildQuery g }

/-- The operation names `#buildQuery` assigns for a sequence of entities, in
assignment order: two per queryable entity. -/
def queryOpNamesOf (ents : List Entity) : List String :=
  (ents.filter (fun e => e.config.queryable)).flatMap
    (fun e => [e.gqlName ++ "_by_id", e.gqlName])

/-- The operation names `#buildQuery` assigns over the whole graph. -/
def queryOpNames (g : Graph) : List String :=
  queryOpNamesOf g.entities

/-- The two root-query operations a queryable entity is said to contribute,
written from the spec's words: `<displayName>_by_id` returning the entity's
output type with a single nullable `id` argument of the opaque identifier
type, and `<displayName>` returning a list of the entity's output type with
a required `limit` and an optional `offset` integer argument.  The gating
theorem equates the builder's output with this form. -/
def entityQueryOperations (e : Entity) : List (String × GQLFieldConfig) :=
  [(e.gqlName ++ "_by_id",
    { type := some (GQLOutputType.object e.gqlName)
      args := [("id", GQLOutputType.scalarID)] }),
   (e.gqlName,
    { type := some (GQLOutputType.list (GQLOutputType.object e.gqlName))
      args := [("limit", GQLOutputType.nonNull GQLOutputType.scalarInt),
               ("offset", GQLOutputType.scalarInt)] })]

/-- Tests whether an emitted type is wrapped as non-null at its root. -/
def isNonNullType : GQLOutputType → Bool
  | GQLOutputType.nonNull _ => true
  | _ => false

end SchemaBuilder

open SchemaBuilder

/-! ## Concrete example inputs

Small graphs and records used as witnesses and counterexamples. -/

/-- Example field configuration, nillable. -/
def exFieldCfgNillable : SchemaBuilder.FieldConfig :=
  { nillable := true, createable := true, updateable := true, filterable := true,
    groupable := false, sortable := true, aggregatable := false }

/-- Example field configuration, non-nillable (required). -/
def exFieldCfgRequired : SchemaBuilder.FieldConfig :=
  { exFieldCfgNillable with nillable := false }

/-- A nillable single-reference field targeting the `Contact` entity. -/
def exContactRef : SchemaBuilder.Field :=
  { sfdcName := "ContactId", gqlName := "contact",
    kind := FieldKind.reference ["Contact"], config := exFieldCfgNillable }

/-- A required single-reference field targeting the `Account` entity. -/
def exAccountRef : SchemaBuilder.Field :=
  { sfdcName := "AccountId", gqlName := "account",
    kind := FieldKind.reference ["Account"], config := exFieldCfgRequired }

/-- A required scalar string field. -/
def exNameField : SchemaBuilder.Field :=
  { sfdcName := "Name", gqlName := "name",
    kind := FieldKind.scalar ScalarTag.string, config := exFieldCfgRequired }

/-- A single-reference field whose target entity is absent from the example
graph. -/
def exDanglingRef : SchemaBuilder.Field :=
  { sfdcName := "OwnerId", gqlName := "owner",
    kind := FieldKind.reference ["User"], config := exFieldCfgNillable }

/-- A polymorphic reference field (carries the polymorphic variant tag and
one target entity source name). -/
def exPolyField : SchemaBuilder.Field :=
  { sfdcName := "WhatId", gqlName := "what",
    kind := FieldKind.polymorphicReference ["Account"], config := exFieldCfgNillable }

/-- A queryable `Account` entity holding a scalar field and a reference to
`Contact`. -/
def exAccount : SchemaBuilder.Entity :=
  { sfdcName := "Account", gqlName := "Account",
    config := { createable := true, updateable := true, deletable := true, queryable := true },
    fields := [exNameField, exContactRef] }

/-- A non-queryable `Contact` entity holding a reference back to
`Account`. -/
def exContact : SchemaBuilder.Entity :=
  { sfdcName := "Contact", gqlName := "Contact",
    config := { createable := true, updateable := true, deletable := false, queryable := false },
    fields := [exAccountRef] }

/-- The example graph: `Account` and `Contact` referencing each other. -/
def exGraph : SchemaBuilder.Graph :=
  { entities := [exAccount, exContact] }

/-- The example graph with the declaration order of the two entities
swapped. -/
def exGraphSwapped : SchemaBuilder.Graph :=
  { entities := [exContact, exAccount] }

/-- The source type tags of the supported closed set of the raw metadata
(every key of `SOBJECT_FIELD_SCALAR_TYPE_MAPPING`). -/
def supportedScalarTags : List String :=
  ["string", "boolean", "int", "double", "date", "datetime", "base64", "id",
   "currency", "textarea", "percent", "phone", "url", "email", "combobox",
   "picklist", "multipicklist", "anyType", "address", "location"]

/-- Example raw field configuration flags shared by the raw records below. -/
def exRawFlags : EntityModel.SObjectField :=
  { name := some "Name", type := "string", nillable := true, createable := true,
    updateable := true, filterable := true, groupable := false, sortable := false,
    aggregatable := false, relationshipName := none, referenceTo := [],
    polymorphicForeignKey := false }

/-- A raw field record whose source type tag is outside the supported closed
set. -/
def c7UnknownTagRecord : EntityModel.SObjectField :=
  { exRawFlags with name := some "Custom__c", type := "geolocation" }

/-- A raw reference record declaring two targets but no polymorphic
marker. -/
def c8MultiTargetRecord : EntityModel.SObjectField :=
  { exRawFlags with
    name := some "WhatId"
    type := "reference"
    relationshipName := some "What"
    referenceTo := ["Account", "Opportunity"]
    polymorphicForeignKey := false }

/-- A raw reference record carrying the explicit polymorphic marker. -/
def c8PolymorphicRecord : EntityModel.SObjectField :=
  { exRawFlags with
    name := some "WhatId"
    type := "reference"
    relationshipName := some "What"
    referenceTo := ["Account", "Opportunity"]
    polymorphicForeignKey := true }

/-- A raw reference record lacking its source name (but having a
relationship name). -/
def c9NamelessRecord : EntityModel.SObjectField :=
  { exRawFlags with
    name := none
    type := "reference"
    relationshipName := some "Owner"
    referenceTo := ["User"]
    polymorphicForeignKey := false }

/-- A raw reference record lacking its relationship name (the one record
kind the normalizer drops). -/
def c9NoRelationshipRecord : EntityModel.SObjectField :=
  { exRawFlags with
    name := some "DelegatedApproverId"
    type := "reference"
    relationshipName := none
    referenceTo := ["User"]
    polymorphicForeignKey := false }

/-- A raw entity record mixing an ordinary scalar record, a nameless
reference record and a dropped (relationship-less) reference record. -/
def c9SObject : EntityModel.DescribeSObjectResult :=
  { name := "Account", createable := true, updateable := true, deletable := true,
    queryable := true,
    fields := [exRawFlags, c9NamelessRecord, c9NoRelationshipRecord],
    childRelationships := [] }

/-! ## Helper lemmas -/

/-- An entity found by `entityBySfdcName` belongs to the graph. -/
theorem entityBySfdcName_mem {g : Graph} {name : String} {e : SchemaBuilder.Entity}
    (h : entityBySfdcName g name = some e) : e ∈ g.entities :=
  List.mem_of_find?_eq_some h

/-- The registry lookup of the display name of any entity of the graph
succeeds and yields the object type of that name. -/
theorem graphQLTypesGet_of_mem {g : Graph} {e : SchemaBuilder.Entity}
    (h : e ∈ g.entities) :
    graphQLTypesGet g e.gqlName = some (GQLOutputType.object e.gqlName) := by
  have hc : g.entities.any (fun x => x.gqlName == e.gqlName) = true :=
    List.any_eq_true.mpr ⟨e, h, by simp⟩
  simp [graphQLTypesGet, hc]

/-- A resolved base type is never itself non-null wrapped. -/
theorem buildFieldBaseType_not_nonNull {g : Graph} {f : SchemaBuilder.Field}
    {b : GQLOutputType} (h : buildFieldBaseType g f = some b) :
    isNonNullType b = false := by
  unfold buildFieldBaseType at h
  rcases hk : f.kind with tag | referenceTo | referenceTo <;> rw [hk] at h
  · cases tag <;> simp [BUILTIN_SCALAR_TYPES] at h <;> subst h <;> rfl
  · rcases referenceTo with _ | ⟨target, _ | ⟨t2, rest⟩⟩
    · simp at h; subst h; rfl
    · rcases hfind : entityBySfdcName g target with _ | e
      · simp [hfind] at h; subst h; rfl
      · simp [hfind, graphQLTypesGet_of_mem (entityBySfdcName_mem hfind)] at h
        subst h; rfl
    · simp at h; subst h; rfl
  · simp at h

/-- The emitted type of a field with a resolved base type is the base type,
non-null wrapped exactly when the field is not nillable. -/
theorem buildField_type_eq {g : Graph} {e : SchemaBuilder.Entity}
    {f : SchemaBuilder.Field} {b : GQLOutputType}
    (hb : buildFieldBaseType g f = some b) :
    (buildField g e f).type
      = some (if f.config.nillable then b else GQLOutputType.nonNull b) := by
  cases hn : f.config.nillable <;> simp [buildField, hb, hn]

/-! ## Claim theorems -/

/-- C1: for a field of the single-reference variant, if it declares exactly
one target entity source name and the graph contains an entity with that
source name, the builder emits that entity's output type as the field's base
type (before nullability wrapping); with zero or two-or-more declared
targets, or with the single target absent from the graph, it emits the
opaque identifier type; in every case the base type is defined, so the
build does not fail. -/
theorem c1_single_reference_resolution (g : Graph) (f : SchemaBuilder.Field)
    (referenceTo : List String) (hk : f.kind = FieldKind.reference referenceTo) :
    (∀ target e, referenceTo = [target] → entityBySfdcName g target = some e →
      buildFieldBaseType g f = some (GQLOutputType.object e.gqlName))
    ∧ (referenceTo.length ≠ 1 →
      buildFieldBaseType g f = some GQLOutputType.scalarID)
    ∧ (∀ target, referenceTo = [target] → entityBySfdcName g target = none →
      buildFieldBaseType g f = some GQLOutputType.scalarID)
    ∧ (buildFieldBaseType g f).isSome = true := by
  refine ⟨?_, ?_, ?_, ?_⟩
  · intro target e hl hfind
    subst hl
    simp [buildFieldBaseType, hk, hfind,
      graphQLTypesGet_of_mem (entityBySfdcName_mem hfind)]
  · intro hlen
    rcases referenceTo with _ | ⟨target, _ | ⟨t2, rest⟩⟩
    · simp [buildFieldBaseType, hk]
    · simp at hlen
    · simp [buildFieldBaseType, hk]
  · intro target hl hfind
    subst hl
    simp [buildFieldBaseType, hk, hfind]
  · rcases referenceTo with _ | ⟨target, _ | ⟨t2, rest⟩⟩
    · simp [buildFieldBaseType, hk]
    · rcases hfind : entityBySfdcName g target with _ | e
      · simp [buildFieldBaseType, hk, hfind]
      · simp [buildFieldBaseType, hk, hfind,
          graphQLTypesGet_of_mem (entityBySfdcName_mem hfind)]
    · simp [buildFieldBaseType, hk]

/-- Witness for C1: the `contact` reference field of the example graph
declares the single target `Contact`, the graph contains it, and the field
resolves to the `Contact` output type. -/
theorem c1_single_reference_resolution_witness :
    exContactRef.kind = FieldKind.reference ["Contact"]
    ∧ entityBySfdcName exGraph "Contact" = some exContact
    ∧ buildFieldBaseType exGraph exContactRef
        = some (GQLOutputType.object exContact.gqlName) := by
  refine ⟨rfl, by decide, ?_⟩
  exact (c1_single_reference_resolution exGraph exContactRef ["Contact"] rfl).1
    "Contact" exContact rfl (by decide)

/-- C4: for every field whose base type resolves, the emitted output type is
the base type wrapped as non-null exactly when the field's `nillable`
config is false — the wrapping is the last step, applied uniformly to
scalar, reference and fallback-opaque base types. -/
theorem c4_nullability_wrapping (g : Graph) (e : SchemaBuilder.Entity)
    (f : SchemaBuilder.Field) (b : GQLOutputType)
    (hb : buildFieldBaseType g f = some b) :
    (buildField g e f).type
      = some (if f.config.nillable then b else GQLOutputType.nonNull b)
    ∧ ∀ t, (buildField g e f).type = some t →
        (isNonNullType t = true ↔ f.config.nillable = false) := by
  have hshape := buildFieldBaseType_not_nonNull hb
  have hmain := buildField_type_eq (e := e) hb
  refine ⟨hmain, ?_⟩
  intro t ht
  rw [hmain] at ht
  cases hn : f.config.nillable <;> rw [hn] at ht <;> simp at ht <;> subst ht
  · simp [isNonNullType]
  · simp [hshape]

/-- Witness for C4: the non-nillable `account` reference field of the
example graph is emitted non-null wrapped. -/
theorem c4_nullability_wrapping_witness :
    buildFieldBaseType exGraph exAccountRef = some (GQLOutputType.object "Account")
    ∧ (buildField exGraph exContact exAccountRef).type
        = some (GQLOutputType.nonNull (GQLOutputType.object "Account")) := by
  have h := c4_nullability_wrapping exGraph exContact exAccountRef
    (GQLOutputType.object "Account") (by decide)
  exact ⟨by decide, by simpa [exAccountRef, exFieldCfgRequired, exFieldCfgNillable] using h.1⟩

/-- C5: contrary to the claim, the builder's field switch has no case for
the polymorphic reference variant.  At this concrete polymorphic field (one
target entity source name, polymorphic variant tag) the base type and the
emitted type are left undefined rather than falling back to the opaque
identifier type. -/
theorem c5_polymorphic_reference_undefined_type :
    buildFieldBaseType exGraph exPolyField = none
    ∧ (buildField exGraph exAccount exPolyField).type = none
    ∧ buildFieldBaseType exGraph exPolyField ≠ some GQLOutputType.scalarID := by
  refine ⟨rfl, rfl, by decide⟩

/-- C6 counterexample: the builtin table maps `combobox` to a dedicated
named scalar type, not to the plain string type, and has no entry at all
for `address` or `location`. -/
theorem c6_combobox_counterexample :
    BUILTIN_SCALAR_TYPES ScalarTag.combobox
      = some (GQLOutputType.namedScalar "Combobox")
    ∧ BUILTIN_SCALAR_TYPES ScalarTag.combobox ≠ some GQLOutputType.scalarString
    ∧ BUILTIN_SCALAR_TYPES ScalarTag.address = none
    ∧ BUILTIN_SCALAR_TYPES ScalarTag.location = none := by
  refine ⟨rfl, by decide, rfl, rfl⟩

/-- C6 (amended): every scalar field kind of the data model except `address`
and `location` maps to a defined output representation; `picklist` maps to
the plain string type, `multipicklist` to a list of strings, and `combobox`
to a dedicated `Combobox` scalar type (not plain string); `address` and
`location` have no entry. -/
theorem c6_scalar_table_amended (tag : ScalarTag)
    (ha : tag ≠ ScalarTag.address) (hl : tag ≠ ScalarTag.location) :
    (BUILTIN_SCALAR_TYPES tag).isSome = true
    ∧ BUILTIN_SCALAR_TYPES ScalarTag.picklist = some GQLOutputType.scalarString
    ∧ BUILTIN_SCALAR_TYPES ScalarTag.multipicklist
        = some (GQLOutputType.list GQLOutputType.scalarString)
    ∧ BUILTIN_SCALAR_TYPES ScalarTag.combobox
        = some (GQLOutputType.namedScalar "Combobox") := by
  refine ⟨?_, rfl, rfl, rfl⟩
  cases tag <;> first
    | rfl
    | exact absurd rfl ha
    | exact absurd rfl hl

/-- Witness for the amended C6 at the `string` tag. -/
theorem c6_scalar_table_amended_witness :
    (BUILTIN_SCALAR_TYPES ScalarTag.string).isSome = true
    ∧ BUILTIN_SCALAR_TYPES ScalarTag.picklist = some GQLOutputType.scalarString :=
  ⟨(c6_scalar_table_amended ScalarTag.string (by decide) (by decide)).1,
   (c6_scalar_table_amended ScalarTag.string (by decide) (by decide)).2.1⟩

/-- C7: every tag of the supported closed set maps to exactly one defined
field kind, but at the failing input — a raw record with the unrecognized
tag `geolocation` — `createField` does not reject the record: it returns a
scalar field whose kind is undefined. -/
theorem c7_unrecognized_tag_not_rejected :
    (supportedScalarTags.all
      (fun t => (EntityModel.SOBJECT_FIELD_SCALAR_TYPE_MAPPING t).isSome)) = true
    ∧ EntityModel.createField c7UnknownTagRecord
        = some (EntityModel.Field.scalar
            { type := none
              sfdcName := some "Custom__c"
              gqlName := some "custom__c"
              config :=
                { nillable := true, createable := true, updateable := true,
                  filterable := true, groupable := false, sortable := false,
                  aggregatable := false } })
    ∧ EntityModel.createField c7UnknownTagRecord ≠ none := by
  refine ⟨by decide, rfl, by decide⟩

/-- C8 counterexample: a raw reference record declaring two targets but no
polymorphic marker is classified as a single reference field targeting the
first declared entity, not as a polymorphic reference field — refuting the
claimed "more than one target or explicit marker" disjunction. -/
theorem c8_multi_target_without_marker_is_single :
    EntityModel.createField c8MultiTargetRecord
      = some (EntityModel.Field.reference
          { sfdcName := some "WhatId"
            gqlName := "what"
            sfdcRelationshipName := "What"
            sfdcReferencedEntityName := some "Account"
            config :=
              { nillable := true, createable := true, updateable := true,
                filterable := true, groupable := false, sortable := false,
                aggregatable := false } }) := by
  rfl

/-- C8 (amended): a raw reference record with a usable relationship name is
classified as a polymorphic reference field if and only if it carries the
explicit polymorphic marker; the number of declared targets plays no
role. -/
theorem c8_reference_classification_amended (r : EntityModel.SObjectField)
    (rel : String) (ht : r.type = "reference")
    (hr : r.relationshipName = some rel) (hne : rel ≠ "") :
    (∃ pf, EntityModel.createField r
        = some (EntityModel.Field.polymorphicReference pf))
      ↔ r.polymorphicForeignKey = true := by
  constructor
  · rintro ⟨pf, hpf⟩
    cases hm : r.polymorphicForeignKey
    · simp [EntityModel.createField, ht, hr, hne, hm] at hpf
    · rfl
  · intro hm
    refine ⟨{ sfdcName := r.name
              gqlName := camelCase rel
              sfdcRelationshipName := rel
              sfdcReferencedEntitiesNames := r.referenceTo
              config :=
                { nillable := r.nillable, createable := r.createable,
                  updateable := r.updateable, filterable := r.filterable,
                  groupable := r.groupable, sortable := r.sortable,
                  aggregatable := r.aggregatable } }, ?_⟩
    simp [EntityModel.createField, ht, hr, hne, hm]

/-- Witness for the amended C8: a marked two-target record is classified as
polymorphic. -/
theorem c8_reference_classification_amended_witness :
    c8PolymorphicRecord.polymorphicForeignKey = true
    ∧ ∃ pf, EntityModel.createField c8PolymorphicRecord
        = some (EntityModel.Field.polymorphicReference pf) :=
  ⟨rfl, (c8_reference_classification_amended c8PolymorphicRecord "What"
    rfl rfl (by decide)).mpr rfl⟩

/-- C9: at the failing input — a raw reference record lacking its source
name — `createField` does not treat the record as an error: it returns a
field whose source name is undefined.  The per-record isolation described
by the claim exists only for a reference record lacking its relationship
name, which is dropped while the remaining records of the same entity are
kept (the example entity keeps two of its three records). -/
theorem c9_missing_source_name_not_rejected :
    EntityModel.createField c9NamelessRecord
      = some (EntityModel.Field.reference
          { sfdcName := none
            gqlName := "owner"
            sfdcRelationshipName := "Owner"
            sfdcReferencedEntityName := some "User"
            config :=
              { nillable := true, createable := true, updateable := true,
                filterable := true, groupable := false, sortable := false,
                aggregatable := false } })
    ∧ EntityModel.createField c9NoRelationshipRecord = none
    ∧ (EntityModel.createEntity c9SObject).fields.length = 2 := by
  refine ⟨rfl, rfl, rfl⟩

/-- A single-target reference field whose target resolves to an entity of
the graph cross-links to that entity's object type: its base type is the
target's output type, the field appears in the owning entity's (deferred)
field list, and its emitted type is defined. -/
theorem crossLinkAux (g : Graph) (A B : SchemaBuilder.Entity)
    (fA : SchemaBuilder.Field) (hB : B ∈ g.entities) (hfa : fA ∈ A.fields)
    (hka : fA.kind = FieldKind.reference [B.sfdcName])
    (hfind : entityBySfdcName g B.sfdcName = some B) :
    buildFieldBaseType g fA = some (GQLOutputType.object B.gqlName)
    ∧ (fA.gqlName, buildField g A fA) ∈ buildObjectFields g A
    ∧ ((buildField g A fA).type).isSome = true := by
  have hbase : buildFieldBaseType g fA = some (GQLOutputType.object B.gqlName) := by
    simp [buildFieldBaseType, hka, hfind, graphQLTypesGet_of_mem hB]
  refine ⟨hbase, ?_, ?_⟩
  · exact List.mem_map_of_mem _ hfa
  · rw [buildField_type_eq (e := A) hbase]
    cases fA.config.nillable <;> simp

/-- C2: two entities that each hold a single-target reference to the other
build successfully in either declaration order: both output types are
registered under their display names, both appear in the schema, and each
one's field list holds the other entity's output type (the reference base
type is the other output type and the emitted type is defined). -/
theorem c2_cyclic_cross_linking (A B : SchemaBuilder.Entity)
    (fA fB : SchemaBuilder.Field)
    (hfa : fA ∈ A.fields) (hfb : fB ∈ B.fields)
    (hka : fA.kind = FieldKind.reference [B.sfdcName])
    (hkb : fB.kind = FieldKind.reference [A.sfdcName])
    (hsfdc : A.sfdcName ≠ B.sfdcName) (hgql : A.gqlName ≠ B.gqlName) :
    ∀ g : Graph, (g = Graph.mk [A, B] ∨ g = Graph.mk [B, A]) →
      ∃ tyA tyB,
        mapGet (buildTypes g) A.gqlName = some tyA
        ∧ mapGet (buildTypes g) B.gqlName = some tyB
        ∧ tyA ∈ (buildSchema g).types
        ∧ tyB ∈ (buildSchema g).types
        ∧ (fA.gqlName, buildField g A fA) ∈ tyA.fields
        ∧ (fB.gqlName, buildField g B fB) ∈ tyB.fields
        ∧ buildFieldBaseType g fA = some (GQLOutputType.object B.gqlName)
        ∧ buildFieldBaseType g fB = some (GQLOutputType.object A.gqlName)
        ∧ ((buildField g A fA).type).isSome = true
        ∧ ((buildField g B fB).type).isSome = true := by
  have hab : (A.gqlName == B.gqlName) = false := by
    simp [hgql]
  have hba : (B.gqlName == A.gqlName) = false := by
    simp [Ne.symm hgql]
  have hsab : (A.sfdcName == B.sfdcName) = false := by
    simp [hsfdc]
  have hsba : (B.sfdcName == A.sfdcName) = false := by
    simp [Ne.symm hsfdc]
  rintro g (rfl | rfl)
  · have hA : A ∈ (Graph.mk [A, B]).entities := by simp
    have hB : B ∈ (Graph.mk [A, B]).entities := by simp
    have hfindB : entityBySfdcName (Graph.mk [A, B]) B.sfdcName = some B := by
      simp [entityBySfdcName, List.find?, hsab]
    have hfindA : entityBySfdcName (Graph.mk [A, B]) A.sfdcName = some A := by
      simp [entityBySfdcName, List.find?]
    obtain ⟨ha1, ha2, ha3⟩ := crossLinkAux _ A B fA hB hfa hka hfindB
    obtain ⟨hb1, hb2, hb3⟩ := crossLinkAux _ B A fB hA hfb hkb hfindA
    refine ⟨{ name := A.gqlName, fields := buildObjectFields (Graph.mk [A, B]) A },
            { name := B.gqlName, fields := buildObjectFields (Graph.mk [A, B]) B },
            ?_, ?_, ?_, ?_, ha2, hb2, ha1, hb1, ha3, hb3⟩
    · simp [mapGet, buildTypes, List.filter, hba]
    · simp [mapGet, buildTypes, List.filter, hab]
    · simp [buildSchema, buildTypes]
    · simp [buildSchema, buildTypes]
  · have hA : A ∈ (Graph.mk [B, A]).entities := by simp
    have hB : B ∈ (Graph.mk [B, A]).entities := by simp
    have hfindB : entityBySfdcName (Graph.mk [B, A]) B.sfdcName = some B := by
      simp [entityBySfdcName, List.find?]
    have hfindA : entityBySfdcName (Graph.mk [B, A]) A.sfdcName = some A := by
      simp [entityBySfdcName, List.find?, hsba]
    obtain ⟨ha1, ha2, ha3⟩ := crossLinkAux _ A B fA hB hfa hka hfindB
    obtain ⟨hb1, hb2, hb3⟩ := crossLinkAux _ B A fB hA hfb hkb hfindA
    refine ⟨{ name := A.gqlName, fields := buildObjectFields (Graph.mk [B, A]) A },
            { name := B.gqlName, fields := buildObjectFields (Graph.mk [B, A]) B },
            ?_, ?_, ?_, ?_, ha2, hb2, ha1, hb1, ha3, hb3⟩
    · simp [mapGet, buildTypes, List.filter, hba]
    · simp [mapGet, buildTypes, List.filter, hab]
    · simp [buildSchema, buildTypes]
    · simp [buildSchema, buildTypes]

/-- Witness for C2: the example `Account` and `Contact` entities reference
each other and cross-link in declaration order `[Account, Contact]`. -/
theorem c2_cyclic_cross_linking_witness :
    ∃ tyA tyB,
      mapGet (buildTypes exGraph) exAccount.gqlName = some tyA
      ∧ mapGet (buildTypes exGraph) exContact.gqlName = some tyB
      ∧ tyA ∈ (buildSchema exGraph).types
      ∧ tyB ∈ (buildSchema exGraph).types
      ∧ (exContactRef.gqlName, buildField exGraph exAccount exContactRef) ∈ tyA.fields
      ∧ (exAccountRef.gqlName, buildField exGraph exContact exAccountRef) ∈ tyB.fields
      ∧ buildFieldBaseType exGraph exContactRef
          = some (GQLOutputType.object exContact.gqlName)
      ∧ buildFieldBaseType exGraph exAccountRef
          = some (GQLOutputType.object exAccount.gqlName)
      ∧ ((buildField exGraph exAccount exContactRef).type).isSome = true
      ∧ ((buildField exGraph exContact exAccountRef).type).isSome = true :=
  c2_cyclic_cross_linking exAccount exContact exContactRef exAccountRef
    (by decide) (by decide) rfl rfl (by decide) (by decide) exGraph (Or.inl rfl)

/-- Assigning a fresh key into a JS record appends the binding. -/
theorem recordSet_fresh {α : Type} (r : List (String × α)) (k : String) (v : α)
    (h : ∀ p ∈ r, p.1 ≠ k) : recordSet r k v = r ++ [(k, v)] := by
  have hc : r.any (fun p => p.1 == k) = false :=
    List.any_eq_false.mpr (fun p hp => by simp [h p hp])
  simp [recordSet, hc]

/-- Any binding of a record after an assignment was either already present
or is the assigned one. -/
theorem mem_recordSet {α : Type} {r : List (String × α)} {k : String} {v : α}
    {p : String × α} (hp : p ∈ recordSet r k v) : p ∈ r ∨ p = (k, v) := by
  unfold recordSet at hp
  split at hp
  · rcases List.mem_map.mp hp with ⟨q, hq, hmap⟩
    by_cases hqk : (q.1 == k) = true
    · rw [if_pos hqk] at hmap
      right; exact hmap.symm
    · rw [if_neg hqk] at hmap
      left; exact hmap ▸ hq
  · rcases List.mem_append.mp hp with h | h
    · left; exact h
    · right; simpa using h

/-- Unrolling the `#buildQuery` loop: when the operation names yet to be
assigned are pairwise distinct and fresh with respect to the accumulated
record, the loop appends, per queryable entity in order, exactly the two
operations of `entityQueryOperations`. -/
theorem foldl_buildQueryStep (g : Graph) (ents : List SchemaBuilder.Entity) :
    ∀ acc : List (String × GQLFieldConfig),
      (∀ e ∈ ents, e ∈ g.entities) →
      ((acc.map Prod.fst) ++ queryOpNamesOf ents).Nodup →
      List.foldl (buildQueryStep g) acc ents
        = acc ++ (ents.filter (fun e => e.config.queryable)).flatMap
            entityQueryOperations := by
  induction ents with
  | nil => intro acc _ _; simp [queryOpNamesOf]
  | cons e ents ih =>
    intro acc hsub hnd
    have hsub' : ∀ x ∈ ents, x ∈ g.entities :=
      fun x hx => hsub x (List.mem_cons_of_mem _ hx)
    cases hq : e.config.queryable
    · have hops : queryOpNamesOf (e :: ents) = queryOpNamesOf ents := by
        simp [queryOpNamesOf, List.filter_cons, hq]
      have hstep : buildQueryStep g acc e = acc := by
        simp [buildQueryStep, hq]
      rw [List.foldl_cons, hstep, ih acc hsub' (by rw [hops] at hnd; exact hnd)]
      simp [List.filter_cons, hq]
    · have hops : queryOpNamesOf (e :: ents)
          = (e.gqlName ++ "_by_id") :: e.gqlName :: queryOpNamesOf ents := by
        simp [queryOpNamesOf, List.filter_cons, hq]
      rw [hops] at hnd
      rcases List.nodup_append.mp hnd with ⟨hacc, hrest, hdisj⟩
      have hk1 : ∀ p ∈ acc, p.1 ≠ e.gqlName ++ "_by_id" := by
        intro p hp heq
        exact hdisj (List.mem_map_of_mem Prod.fst hp)
          (by rw [heq]; exact List.mem_cons_self _ _)
      have hk2acc : ∀ p ∈ acc, p.1 ≠ e.gqlName := by
        intro p hp heq
        exact hdisj (List.mem_map_of_mem Prod.fst hp)
          (by rw [heq]; exact List.mem_cons_of_mem _ (List.mem_cons_self _ _))
      have hk12 : e.gqlName ++ "_by_id" ≠ e.gqlName := by
        have h0 := (List.nodup_cons.mp hrest).1
        intro heq
        exact h0 (by rw [heq]; exact List.mem_cons_self _ _)
      have hty : graphQLTypesGet g e.gqlName
          = some (GQLOutputType.object e.gqlName) :=
        graphQLTypesGet_of_mem (hsub e (List.mem_cons_self e ents))
      have hstep : buildQueryStep g acc e = acc ++ entityQueryOperations e := by
        simp only [buildQueryStep, hq, if_true]
        rw [recordSet_fresh _ _ _ hk1]
        rw [recordSet_fresh]
        · simp [entityQueryOperations, hty]
        · intro p hp
          rcases List.mem_append.mp hp with h | h
          · exact hk2acc p h
          · have hps : p = (e.gqlName ++ "_by_id",
                { type := graphQLTypesGet g e.gqlName
                  args := [("id", GQLOutputType.scalarID)] }) := by
              simpa using h
            rw [hps]
            exact hk12
      rw [List.foldl_cons, hstep, ih (acc ++ entityQueryOperations e) hsub' ?_]
      · simp [List.filter_cons, hq]
      · simpa [entityQueryOperations, List.append_assoc] using hnd

/-- C3: as long as the generated operation names do not collide, the root
query type holds, in graph order, exactly the two operations of
`entityQueryOperations` for each queryable entity — `<displayName>_by_id`
returning the entity's type with one nullable `id: ID` argument, and
`<displayName>` returning a list of the entity's type with a required
`limit` and an optional `offset` integer argument — and nothing for a
non-queryable entity. -/
theorem c3_query_gating (g : Graph) (hfresh : (queryOpNames g).Nodup) :
    (buildQuery g).fields
      = (g.entities.filter (fun e => e.config.queryable)).flatMap
          entityQueryOperations := by
  have h := foldl_buildQueryStep g g.entities [] (fun e he => he)
    (by simpa [queryOpNames] using hfresh)
  simpa [buildQuery, buildQueryFields] using h

/-- Witness for C3: in the example graph the queryable `Account` entity
contributes exactly its two operations and the non-queryable `Contact`
entity contributes none. -/
theorem c3_query_gating_witness :
    (queryOpNames exGraph).Nodup
    ∧ (buildQuery exGraph).fields = entityQueryOperations exAccount := by
  have h := c3_query_gating exGraph (by decide)
  refine ⟨by decide, ?_⟩
  rw [h]
  decide

/-- A map built from entries holding a binding for a key resolves that key
to one of its bindings. -/
theorem mapGet_of_key {α : Type} {l : List (String × α)} {k : String}
    (h : ∃ p ∈ l, p.1 = k) : ∃ v, mapGet l k = some v ∧ (k, v) ∈ l := by
  rcases h with ⟨p, hp, hpk⟩
  have hmemf : p ∈ l.filter (fun q => q.1 == k) :=
    List.mem_filter.mpr ⟨hp, by simp [hpk]⟩
  have hne : l.filter (fun q => q.1 == k) ≠ [] := by
    intro h0
    rw [h0] at hmemf
    exact absurd hmemf (List.not_mem_nil p)
  have hq := List.getLast?_eq_getLast_of_ne_nil hne
  have hqmem : (l.filter (fun q => q.1 == k)).getLast hne
      ∈ l.filter (fun q => q.1 == k) := List.getLast_mem hne
  rcases List.mem_filter.mp hqmem with ⟨hql, hqk⟩
  have hq1 : ((l.filter (fun q => q.1 == k)).getLast hne).1 = k := by simpa using hqk
  refine ⟨((l.filter (fun q => q.1 == k)).getLast hne).2, ?_, ?_⟩
  · unfold mapGet
    rw [hq]
    rfl
  · have hqe : (k, ((l.filter (fun q => q.1 == k)).getLast hne).2)
        = (l.filter (fun q => q.1 == k)).getLast hne :=
      Prod.ext hq1.symm rfl
    rw [hqe]
    exact hql

/-- Every entity of the graph contributes an entry to the type registry
keyed by its display name. -/
theorem buildTypes_key {g : Graph} {e : SchemaBuilder.Entity}
    (he : e ∈ g.entities) : ∃ p ∈ buildTypes g, p.1 = e.gqlName := by
  refine ⟨(e.gqlName, { name := e.gqlName, fields := buildObjectFields g e }), ?_, rfl⟩
  have h1 : ({ name := e.gqlName, fields := buildObjectFields g e } : GQLObjectType)
      ∈ g.entities.map (fun entity =>
        ({ name := entity.gqlName, fields := buildObjectFields g entity } : GQLObjectType)) :=
    List.mem_map_of_mem _ he
  simpa [buildTypes] using List.mem_map_of_mem (fun entry => (entry.name, entry)) h1

/-- Every registry entry is keyed by the name of the object type it
holds. -/
theorem buildTypes_pair_name {g : Graph} : ∀ p ∈ buildTypes g, p.2.name = p.1 := by
  intro p hp
  simp [buildTypes, List.mem_map] at hp
  rcases hp with ⟨ent, hent, rfl⟩
  rfl

/-- The `#buildQuery` loop only ever stores field configurations with a
defined type, given that every processed entity belongs to the graph. -/
theorem foldl_buildQueryStep_isSome (g : Graph) (ents : List SchemaBuilder.Entity) :
    ∀ acc : List (String × GQLFieldConfig),
      (∀ e ∈ ents, e ∈ g.entities) →
      (∀ p ∈ acc, (p.2.type).isSome = true) →
      ∀ p ∈ List.foldl (buildQueryStep g) acc ents, (p.2.type).isSome = true := by
  induction ents with
  | nil => intro acc _ hacc p hp; exact hacc p (by simpa using hp)
  | cons e ents ih =>
    intro acc hsub hacc p hp
    rw [List.foldl_cons] at hp
    refine ih (buildQueryStep g acc e)
      (fun x hx => hsub x (List.mem_cons_of_mem _ hx)) ?_ p hp
    intro q hq
    have hty : graphQLTypesGet g e.gqlName
        = some (GQLOutputType.object e.gqlName) :=
      graphQLTypesGet_of_mem (hsub e (List.mem_cons_self e ents))
    cases hqb : e.config.queryable
    · simp [buildQueryStep, hqb] at hq
      exact hacc q hq
    · simp only [buildQueryStep, hqb, if_true] at hq
      rcases mem_recordSet hq with hq2 | hq2
      · rcases mem_recordSet hq2 with hq3 | hq3
        · exact hacc q hq3
        · rw [hq3]
          simp [hty]
      · rw [hq2]
        simp [hty]

/-- C10: the by-name lookups the builder performs never miss — the registry
built by `buildTypes` holds an output type under every entity's display
name, the `graphQLTypesGet` read performed for each queryable entity during
root-query construction succeeds, and consequently every root-query field
carries a defined type. -/
theorem c10_registry_lookup_safety (g : Graph) :
    (∀ e ∈ g.entities,
      ∃ ty, mapGet (buildTypes g) e.gqlName = some ty ∧ ty.name = e.gqlName)
    ∧ (∀ e ∈ g.entities, e.config.queryable = true →
        (graphQLTypesGet g e.gqlName).isSome = true)
    ∧ (∀ p ∈ (buildQuery g).fields, (p.2.type).isSome = true) := by
  refine ⟨?_, ?_, ?_⟩
  · intro e he
    obtain ⟨v, hv, hmem⟩ := mapGet_of_key (buildTypes_key he)
    exact ⟨v, hv, buildTypes_pair_name _ hmem⟩
  · intro e he hqe
    simp [graphQLTypesGet_of_mem he]
  · intro p hp
    refine foldl_buildQueryStep_isSome g g.entities [] (fun e he => he)
      (by simp) p ?_
    simpa [buildQuery, buildQueryFields] using hp

/-- Witness for C10 at the example graph and its `Account` entity. -/
theorem c10_registry_lookup_safety_witness :
    (∃ ty, mapGet (buildTypes exGraph) exAccount.gqlName = some ty
      ∧ ty.name = exAccount.gqlName)
    ∧ (graphQLTypesGet exGraph exAccount.gqlName).isSome = true :=
  ⟨(c10_registry_lookup_safety exGraph).1 exAccount (by decide),
   (c10_registry_lookup_safety exGraph).2.1 exAccount (by decide) (by decide)⟩
